import Mathlib

/-!
Verification of the FIFA-EPV-Analyzer analytical core.

The JavaScript source under `src/utils/` is shallowly embedded below:
floating-point arithmetic is modelled over `ℝ` (the clustering code of
`defensiveLines.js`, which must be executed on concrete inputs, is modelled
over `ℚ`), JS objects become structures, and `undefined` array reads become
`Option`.  Display-only string fields built from player names are kept where
they influence nothing (`targetName` is reproduced from the jersey number as
in the data the app loads, where players carry no `name` field).
-/

/-! ## Data model (`Possession Snapshot` of the spec) -/

/-- A mover: `{id, jerseyNum, x, y, vx, vy, position}` as produced by the
ingestion layer (`dataLoader`).  `vx`/`vy` default to `0` upstream, so they
are total here. -/
structure Player where
  id : ℕ
  jerseyNum : ℕ
  x : ℝ
  y : ℝ
  vx : ℝ
  vy : ℝ
  position : String

/-- A point on the pitch; also the ball position (the optional height `z`
of the JS ball object is read by no core computation). -/
structure Point where
  x : ℝ
  y : ℝ

/-- The per-instant snapshot threaded through every evaluator
(`gameState` in the source). -/
structure GameState where
  teamPlayers : List Player
  opponentPlayers : List Player
  ball : Point
  attackingRight : Bool

/-! ## Kinematic interceptor (`pitchControl.js` lines 8-97) -/

/-- `PLAYER_MAX_SPEED = 5.5` m/s. -/
def PLAYER_MAX_SPEED : ℝ := 5.5

/-- `PLAYER_ACCELERATION = 3.5` m/s². -/
def PLAYER_ACCELERATION : ℝ := 3.5

/-- `REACTION_TIME = 0.7` s. -/
def REACTION_TIME : ℝ := 0.7

/-- `BALL_SPEED = 15` m/s. -/
def BALL_SPEED : ℝ := 15

/-- The `POSITION_SPEED_FACTORS` object of `pitchControl.js`. -/
def POSITION_SPEED_FACTORS : List (String × ℝ) :=
  [("GK", 0.85), ("CB", 0.90), ("LCB", 0.90), ("RCB", 0.90),
   ("LB", 0.95), ("RB", 0.95), ("CM", 0.92), ("CDM", 0.90),
   ("CAM", 0.93), ("AM", 0.93), ("LM", 0.98), ("RM", 0.98),
   ("LW", 1.0), ("RW", 1.0), ("CF", 0.95), ("ST", 0.95)]

/-- `POSITION_SPEED_FACTORS[player.position] || 0.95`: the role-speed table
with its fallback (no table value is falsy, so the JS `||` is exactly
lookup-with-default). -/
noncomputable def positionSpeedFactor (pos : String) : ℝ :=
  (POSITION_SPEED_FACTORS.lookup pos).getD 0.95

/-- Straight-line distance from the mover to the target
(`Math.sqrt(dx*dx + dy*dy)`). -/
noncomputable def interceptDistance (p : Player) (targetX targetY : ℝ) : ℝ :=
  Real.sqrt ((targetX - p.x) * (targetX - p.x) + (targetY - p.y) * (targetY - p.y))

/-- Role-capped top speed: `PLAYER_MAX_SPEED * speedFactor`. -/
noncomputable def maxSpeedOf (p : Player) : ℝ :=
  PLAYER_MAX_SPEED * positionSpeedFactor p.position

/-- Component of the mover's current velocity towards the target:
`vx * dirX + vy * dirY` with `dir = (dx/distance, dy/distance)`. -/
noncomputable def velocityTowardsTarget (p : Player) (targetX targetY : ℝ) : ℝ :=
  p.vx * ((targetX - p.x) / interceptDistance p targetX targetY) +
    p.vy * ((targetY - p.y) / interceptDistance p targetX targetY)

/-- `accelTime = (maxSpeed - Math.max(0, velocityTowardsTarget)) / PLAYER_ACCELERATION`. -/
noncomputable def accelTimeOf (p : Player) (targetX targetY : ℝ) : ℝ :=
  (maxSpeedOf p - max 0 (velocityTowardsTarget p targetX targetY)) / PLAYER_ACCELERATION

/-- `accelDistance = velocityTowardsTarget * accelTime + 0.5 * PLAYER_ACCELERATION * accelTime²`. -/
noncomputable def accelDistanceOf (p : Player) (targetX targetY : ℝ) : ℝ :=
  velocityTowardsTarget p targetX targetY * accelTimeOf p targetX targetY +
    0.5 * PLAYER_ACCELERATION * accelTimeOf p targetX targetY * accelTimeOf p targetX targetY

/-- `timeToIntercept(player, targetX, targetY)` (`pitchControl.js` 42-82):
reaction delay, acceleration phase, then the remaining distance at the
capped speed; `0` when the mover is already within `0.5` m.  (The JS
`currentSpeed` local is computed but never used.) -/
noncomputable def timeToIntercept (p : Player) (targetX targetY : ℝ) : ℝ :=
  if interceptDistance p targetX targetY < 0.5 then 0
  else
    REACTION_TIME + accelTimeOf p targetX targetY +
      max 0 (interceptDistance p targetX targetY - accelDistanceOf p targetX targetY) /
        maxSpeedOf p

/-- `ballTravelTime(ball, targetX, targetY) = distance / BALL_SPEED`. -/
noncomputable def ballTravelTime (ball : Point) (targetX targetY : ℝ) : ℝ :=
  Real.sqrt ((targetX - ball.x) ^ 2 + (targetY - ball.y) ^ 2) / BALL_SPEED

/-! ## Spatial control field (`pitchControl.js` lines 109-210) -/

/-- One mover's influence contribution at a point: the logistic (steepness 4)
of its time advantage over the ball (`pitchControl.js` 115-120). -/
noncomputable def playerInfluence (pl : Player) (x y ballTime : ℝ) : ℝ :=
  1 / (1 + Real.exp (-4 * (ballTime - timeToIntercept pl x y)))

/-- The `forEach` accumulation of influences of one side. -/
noncomputable def influenceSum (players : List Player) (x y ballTime : ℝ) : ℝ :=
  (players.map fun pl => playerInfluence pl x y ballTime).sum

/-- `pitchControlAtPoint(x, y, teamPlayers, opponentPlayers, ball)`
(`pitchControl.js` 109-137): ratio of team influence to total influence,
`0.5` when the total is exactly zero. -/
noncomputable def pitchControlAtPoint (x y : ℝ) (teamPlayers opponentPlayers : List Player)
    (ball : Point) : ℝ :=
  let ballTime := ballTravelTime ball x y
  let teamInfluence := influenceSum teamPlayers x y ballTime
  let opponentInfluence := influenceSum opponentPlayers x y ballTime
  if teamInfluence + opponentInfluence = 0 then 0.5
  else teamInfluence / (teamInfluence + opponentInfluence)

/-- The record returned by `generatePitchControlSurface`. -/
structure PitchControlSurface where
  grid : List (List ℝ)
  gridWidth : ℕ
  gridHeight : ℕ
  resolution : ℝ
  pitchLength : ℝ
  pitchWidth : ℝ

/-- `generatePitchControlSurface` (`pitchControl.js` 148-187): evaluates the
control at every cell center of a `ceil(length/res) × ceil(width/res)` grid.
The JS defaults `{105, 68, 2}` are supplied by the callers modelled here. -/
noncomputable def generatePitchControlSurface (teamPlayers opponentPlayers : List Player)
    (ball : Point) (pitchLength pitchWidth resolution : ℝ) : PitchControlSurface :=
  let gridWidth := (Int.ceil (pitchLength / resolution)).toNat
  let gridHeight := (Int.ceil (pitchWidth / resolution)).toNat
  { grid := (List.range gridHeight).map fun (yi : ℕ) =>
      (List.range gridWidth).map fun (xi : ℕ) =>
        pitchControlAtPoint ((xi : ℝ) * resolution - pitchLength / 2 + resolution / 2)
          ((yi : ℝ) * resolution - pitchWidth / 2 + resolution / 2)
          teamPlayers opponentPlayers ball
    gridWidth := gridWidth
    gridHeight := gridHeight
    resolution := resolution
    pitchLength := pitchLength
    pitchWidth := pitchWidth }

/-- The floor-division cell index `Math.floor((coord + extent / 2) / resolution)`
shared by both point lookups. -/
noncomputable def gridIndex (extent resolution coord : ℝ) : ℤ :=
  ⌊(coord + extent / 2) / resolution⌋

/-- `getPitchControlAt(surface, x, y)` (`pitchControl.js` 197-210): bounds
check against `grid.length` / `grid[0].length`, neutral `0.5` outside. -/
noncomputable def getPitchControlAt (surface : PitchControlSurface) (x y : ℝ) : ℝ :=
  let xi := gridIndex surface.pitchLength surface.resolution x
  let yi := gridIndex surface.pitchWidth surface.resolution y
  if yi < 0 ∨ (surface.grid.length : ℤ) ≤ yi ∨ xi < 0 ∨
      ((surface.grid.headD []).length : ℤ) ≤ xi then 0.5
  else (surface.grid.getD yi.toNat []).getD xi.toNat 0

/-- `calculateInterceptionProbability(passer, receiver, opponents)`
(`pitchControl.js` 220-272).  The JS `passTravelTime` local is computed but
never used. -/
noncomputable def calculateInterceptionProbability (passer receiver : Player)
    (opponents : List Player) : ℝ :=
  let passDistance := Real.sqrt ((receiver.x - passer.x) ^ 2 + (receiver.y - passer.y) ^ 2)
  let dirX := (receiver.x - passer.x) / passDistance
  let dirY := (receiver.y - passer.y) / passDistance
  let maxInterceptionProb := opponents.foldl (fun acc opponent =>
    let toOpponentX := opponent.x - passer.x
    let toOpponentY := opponent.y - passer.y
    let projDist := toOpponentX * dirX + toOpponentY * dirY
    if 0 < projDist ∧ projDist < passDistance then
      let perpDist := |toOpponentX * (-dirY) + toOpponentY * dirX|
      let ballTimeToPoint := projDist / BALL_SPEED
      let timeToLine := timeToIntercept opponent
        (passer.x + projDist * dirX) (passer.y + projDist * dirY)
      let prob := 1 / (1 + Real.exp (-5 * (ballTimeToPoint - timeToLine)))
      let distanceFactor := Real.exp (-perpDist / 3)
      max acc (prob * distanceFactor)
    else acc) 0
  let distanceRisk := 1 - Real.exp (-passDistance / 40)
  min 0.95 (maxInterceptionProb + distanceRisk * 0.1)

/-! ## Possession value model (`epvModel.js`) -/

/-- `progressionValue(x, y, attackingRight)` (`epvModel.js` 38-76): six
piecewise-linear bands of the normalized along-attack coordinate times a
central-corridor bonus, capped at `1`. -/
noncomputable def progressionValue (x y : ℝ) (attackingRight : Bool) : ℝ :=
  let pitchLength : ℝ := 105
  let pitchWidth : ℝ := 68
  let attackingX := if attackingRight then x else -x
  let normalizedX := (attackingX + pitchLength / 2) / pitchLength
  let progressionFactor :=
    if normalizedX < 0.15 then 0.05 + normalizedX * 0.3
    else if normalizedX < 0.33 then 0.1 + (normalizedX - 0.15) * 0.5
    else if normalizedX < 0.50 then 0.2 + (normalizedX - 0.33) * 1.2
    else if normalizedX < 0.66 then 0.4 + (normalizedX - 0.50) * 1.5
    else if normalizedX < 0.85 then 0.65 + (normalizedX - 0.66) * 1.2
    else 0.9 + (normalizedX - 0.85) * 0.6
  let normalizedY := |y| / (pitchWidth / 2)
  let centralBonus := 1 - 0.25 * normalizedY
  min 1 (progressionFactor * centralBonus)

/-- The control value used by `calculateEPV`: read from the pre-computed
surface when supplied, computed directly otherwise (`epvModel.js` 162-167). -/
noncomputable def controlForEPV (x y : ℝ) (gameState : GameState)
    (pitchControlSurface : Option PitchControlSurface) : ℝ :=
  match pitchControlSurface with
  | some surface => getPitchControlAt surface x y
  | none => pitchControlAtPoint x y gameState.teamPlayers gameState.opponentPlayers
      gameState.ball

/-- `calculateEPV(x, y, gameState, pitchControlSurface)` (`epvModel.js`
154-182): progression times the divergent control contribution, clamped to
`[-1, 1]`. -/
noncomputable def calculateEPV (x y : ℝ) (gameState : GameState)
    (pitchControlSurface : Option PitchControlSurface) : ℝ :=
  let progression := progressionValue x y gameState.attackingRight
  let control := controlForEPV x y gameState pitchControlSurface
  let controlContribution := (control - 0.5) * 2
  let epv := progression * controlContribution
  max (-1) (min 1 epv)

/-- The record returned by `generateEPVSurface`. -/
structure EPVSurface where
  grid : List (List ℝ)
  gridWidth : ℕ
  gridHeight : ℕ
  resolution : ℝ
  pitchLength : ℝ
  pitchWidth : ℝ
  maxEPV : ℝ
  minEPV : ℝ
  pitchControlSurface : PitchControlSurface

/-- `generateEPVSurface(gameState, options)` (`epvModel.js` 257-314): builds
the control surface, then maps the (unclamped) EPV formula over the same
grid, tracking the running extrema (initialised at `-1` / `1`). -/
noncomputable def generateEPVSurface (gameState : GameState)
    (pitchLength pitchWidth resolution : ℝ) : EPVSurface :=
  let pcs := generatePitchControlSurface gameState.teamPlayers gameState.opponentPlayers
    gameState.ball pitchLength pitchWidth resolution
  let gridWidth := (Int.ceil (pitchLength / resolution)).toNat
  let gridHeight := (Int.ceil (pitchWidth / resolution)).toNat
  let grid := (List.range gridHeight).map fun (yi : ℕ) =>
    (List.range gridWidth).map fun (xi : ℕ) =>
      let x := (xi : ℝ) * resolution - pitchLength / 2 + resolution / 2
      let y := (yi : ℝ) * resolution - pitchWidth / 2 + resolution / 2
      let control := (pcs.grid.getD yi []).getD xi 0
      let progression := progressionValue x y gameState.attackingRight
      progression * ((control - 0.5) * 2)
  { grid := grid
    gridWidth := gridWidth
    gridHeight := gridHeight
    resolution := resolution
    pitchLength := pitchLength
    pitchWidth := pitchWidth
    maxEPV := grid.flatten.foldl max (-1)
    minEPV := grid.flatten.foldl min 1
    pitchControlSurface := pcs }

/-- `getEPVAt(surface, x, y)` (`epvModel.js` 324-335): same indexing as the
control lookup, neutral `0` outside the grid. -/
noncomputable def getEPVAt (surface : EPVSurface) (x y : ℝ) : ℝ :=
  let xi := gridIndex surface.pitchLength surface.resolution x
  let yi := gridIndex surface.pitchWidth surface.resolution y
  if yi < 0 ∨ (surface.grid.length : ℤ) ≤ yi ∨ xi < 0 ∨
      ((surface.grid.headD []).length : ℤ) ≤ xi then 0
  else (surface.grid.getD yi.toNat []).getD xi.toNat 0

/-! ## Pass evaluator (`passEvaluator.js`) -/

/-- The record returned by `calculateTurnoverEPV`. -/
structure TurnoverInfo where
  turnoverEPV : ℝ
  interceptionPoint : Point
  interceptor : Option Player

/-- `calculateTurnoverEPV(passer, receiver, opponents, gameState)`
(`passEvaluator.js` 29-110): finds the earliest feasible interceptor along
the pass line (`Infinity` initial best time modelled by `Option ℝ`),
falls back to the opponent nearest the receiver, then negates the EPV of
the role-swapped snapshot at the interception point. -/
noncomputable def calculateTurnoverEPV (passer receiver : Player) (opponents : List Player)
    (gameState : GameState) : TurnoverInfo :=
  let passDistance := Real.sqrt ((receiver.x - passer.x) ^ 2 + (receiver.y - passer.y) ^ 2)
  let dirX := (receiver.x - passer.x) / passDistance
  let dirY := (receiver.y - passer.y) / passDistance
  let scan := opponents.foldl (fun (acc : Option Player × Option ℝ × Point) opponent =>
    let projDist := (opponent.x - passer.x) * dirX + (opponent.y - passer.y) * dirY
    if 0 < projDist ∧ projDist < passDistance then
      let interceptX := passer.x + projDist * dirX
      let interceptY := passer.y + projDist * dirY
      let ballTime := projDist / BALL_SPEED
      let oppTime := timeToIntercept opponent interceptX interceptY
      if oppTime < ballTime + 0.3 then
        match acc.2.1 with
        | none => (some opponent, some oppTime, ⟨interceptX, interceptY⟩)
        | some bestTime =>
          if oppTime < bestTime then (some opponent, some oppTime, ⟨interceptX, interceptY⟩)
          else acc
      else acc
    else acc) (none, none, ⟨receiver.x, receiver.y⟩)
  let chosen : Option Player × Point :=
    match scan.1 with
    | some interceptor => (some interceptor, scan.2.2)
    | none =>
      let closest := opponents.foldl (fun (acc : Option Player × Option ℝ) opp =>
        let dist := Real.sqrt ((opp.x - receiver.x) ^ 2 + (opp.y - receiver.y) ^ 2)
        match acc.2 with
        | none => (some opp, some dist)
        | some minDist => if dist < minDist then (some opp, some dist) else acc)
        (none, none)
      (closest.1, ⟨receiver.x, receiver.y⟩)
  let interceptionPoint := chosen.2
  let flippedGameState : GameState :=
    { teamPlayers := gameState.opponentPlayers
      opponentPlayers := gameState.teamPlayers
      ball := interceptionPoint
      attackingRight := !gameState.attackingRight }
  let opponentEPV := calculateEPV interceptionPoint.x interceptionPoint.y flippedGameState none
  { turnoverEPV := -opponentEPV, interceptionPoint := interceptionPoint,
    interceptor := chosen.1 }

/-- The receiver-side value of `evaluatePass` (`passEvaluator.js` 139-150):
EPV at the receiver from the ball-relocated snapshot, or a surface lookup. -/
noncomputable def receiverValue (receiver : Player) (gameState : GameState)
    (epvSurface : Option EPVSurface) : ℝ :=
  match epvSurface with
  | some surface => getEPVAt surface receiver.x receiver.y
  | none => calculateEPV receiver.x receiver.y
      { gameState with ball := ⟨receiver.x, receiver.y⟩ } none

/-- Along-attack-axis displacement of a pass
(`passDirection`, `passEvaluator.js` 157-158). -/
def passDirectionOf (passer receiver : Player) (attackingRight : Bool) : ℝ :=
  if attackingRight then receiver.x - passer.x else -(receiver.x - passer.x)

/-- The direction multiplier of `evaluatePass` (`passEvaluator.js` 164-178). -/
noncomputable def directionFactor (passDirection : ℝ) : ℝ :=
  if 10 < passDirection then 1.3 + min 0.2 (passDirection / 50)
  else if 0 < passDirection then 1 + passDirection / 50
  else if -10 < passDirection then 1 + passDirection / 30
  else max 0.3 (0.7 + passDirection / 50)

/-- The record returned by `evaluatePass`. -/
structure PassEvaluation where
  receiver : Player
  receiverEPV : ℝ
  rawReceiverEPV : ℝ
  turnoverEPV : ℝ
  directionFactor : ℝ
  successProbability : ℝ
  interceptProbability : ℝ
  expectedValue : ℝ
  passDistance : ℝ
  passTime : ℝ
  passDirection : String
  interceptionPoint : Point
  riskRewardDiff : ℝ

/-- `evaluatePass(passer, receiver, gameState, epvSurface)` (`passEvaluator.js`
125-209): success probability, direction-adjusted receiver value, dynamic
turnover value, and their expected-value combination. -/
noncomputable def evaluatePass (passer receiver : Player) (gameState : GameState)
    (epvSurface : Option EPVSurface) : PassEvaluation :=
  let interceptProb := calculateInterceptionProbability passer receiver
    gameState.opponentPlayers
  let successProb := 1 - interceptProb
  let passDistance := Real.sqrt ((receiver.x - passer.x) ^ 2 + (receiver.y - passer.y) ^ 2)
  let passTime := passDistance / BALL_SPEED
  let rawEPV := receiverValue receiver gameState epvSurface
  let passDirection := passDirectionOf passer receiver gameState.attackingRight
  let dirFactor := directionFactor passDirection
  let adjustedReceiverEPV := rawEPV * dirFactor
  let turnoverInfo := calculateTurnoverEPV passer receiver gameState.opponentPlayers gameState
  let turnoverEPV := turnoverInfo.turnoverEPV
  let expectedValue := successProb * adjustedReceiverEPV + interceptProb * turnoverEPV
  { receiver := receiver
    receiverEPV := adjustedReceiverEPV
    rawReceiverEPV := rawEPV
    turnoverEPV := turnoverEPV
    directionFactor := dirFactor
    successProbability := successProb
    interceptProbability := interceptProb
    expectedValue := expectedValue
    passDistance := passDistance
    passTime := passTime
    passDirection := if 0 < passDirection then "forward"
      else if passDirection < -10 then "backward" else "lateral"
    interceptionPoint := turnoverInfo.interceptionPoint
    riskRewardDiff := adjustedReceiverEPV - |turnoverEPV| }

/-- One ranked pass option of `findPassOptions`.  The JS object spreads the
evaluation's fields inline; here they are kept under `evaluation`.  The
loaded player records carry no `name` field, so `targetName` is always the
jersey-number fallback. -/
structure PassOption where
  target : Player
  targetName : String
  targetPosition : String
  evaluation : PassEvaluation
  currentEPV : ℝ
  epvAdded : ℝ
  riskLevel : String

/-- `findPassOptions(ballCarrier, teammates, gameState)` (`passEvaluator.js`
219-250): evaluates every teammate against a freshly generated EPV surface
(default grid options `{105, 68, 2}`) and sorts descending by `epvAdded`
(`sort((a, b) => b.epvAdded - a.epvAdded)`, a stable sort, modelled by the
stable `insertionSort` on `b.epvAdded ≤ a.epvAdded`). -/
noncomputable def findPassOptions (ballCarrier : Option Player) (teammates : List Player)
    (gameState : GameState) : List PassOption :=
  match ballCarrier with
  | none => []
  | some carrier =>
    if teammates.isEmpty then []
    else
      let currentEPV := calculateEPV carrier.x carrier.y gameState none
      let epvSurface := generateEPVSurface gameState 105 68 2
      let passOptions := teammates.map fun teammate =>
        let evaluation := evaluatePass carrier teammate gameState (some epvSurface)
        { target := teammate
          targetName := "#" ++ toString teammate.jerseyNum
          targetPosition := teammate.position
          evaluation := evaluation
          currentEPV := currentEPV
          epvAdded := evaluation.expectedValue - currentEPV
          riskLevel := if 0.5 < evaluation.interceptProbability then "high"
            else if 0.25 < evaluation.interceptProbability then "medium"
            else "low" : PassOption }
      List.insertionSort (fun a b => b.epvAdded ≤ a.epvAdded) passOptions

/-! ## Action likelihood model (`actionModel.js`, `ballDriveModel` part of
`defensiveLines.js` lines 529-571) -/

/-- The record returned by `calculatePressure`.  The JS `closestDist` starts
at `Infinity`, modelled by `none`. -/
structure PressureInfo where
  pressureScore : ℝ
  closestDist : Option ℝ
  closestOpponent : Option Player
  opponentsNearby : ℕ
  opponentsHigh : ℕ
  underHighPressure : Bool

/-- `calculatePressure(ballCarrier, opponents)`: nearest-opponent scan plus
radius counts, then the banded pressure score capped at `1`. -/
noncomputable def calculatePressure (ballCarrier : Player) (opponents : List Player) :
    PressureInfo :=
  let scan := opponents.foldl
    (fun (acc : Option ℝ × Option Player × ℕ × ℕ) opp =>
      let dist := Real.sqrt ((opp.x - ballCarrier.x) ^ 2 + (opp.y - ballCarrier.y) ^ 2)
      let closer : Option ℝ × Option Player :=
        match acc.1 with
        | none => (some dist, some opp)
        | some d => if dist < d then (some dist, some opp) else (acc.1, acc.2.1)
      (closer.1, closer.2,
        acc.2.2.1 + (if dist < 3 then 1 else 0),
        acc.2.2.2 + (if dist < 1.5 then 1 else 0)))
    (none, none, 0, 0)
  let nHigh := scan.2.2.2
  let score :=
    match scan.1 with
    | none => 0
    | some closestDist =>
      if closestDist < 1.5 then 0.9 + ((nHigh : ℝ) - 1) * 0.05
      else if closestDist < 3 then 0.4 + 0.5 * (3 - closestDist) / (3 - 1.5)
      else if closestDist < 6 then 0.2 * (6 - closestDist) / 3
      else 0
  { pressureScore := min 1 score
    closestDist := scan.1
    closestOpponent := scan.2.1
    opponentsNearby := scan.2.2.1
    opponentsHigh := nHigh
    underHighPressure := 0 < nHigh }

/-- `shotProbability(ballCarrier, gameState)` (`actionModel.js` 34-81). -/
noncomputable def shotProbability (ballCarrier : Player) (gameState : GameState) : ℝ :=
  let goalX : ℝ := if gameState.attackingRight then 52.5 else -52.5
  let distToGoal := Real.sqrt ((ballCarrier.x - goalX) ^ 2 + (ballCarrier.y - 0) ^ 2)
  let attackingX := if gameState.attackingRight then ballCarrier.x else -ballCarrier.x
  let base :=
    if 47 < attackingX ∧ |ballCarrier.y| < 9.16 then (0.7 : ℝ)
    else if 36 < attackingX ∧ |ballCarrier.y| < 20.16 then
      0.5 * Real.exp (-(distToGoal - 11) / 10)
    else if distToGoal < 25 then 0.15 * Real.exp (-(distToGoal - 16.5) / 8)
    else 0.02 * Real.exp (-distToGoal / 40)
  let withAngle := base * Real.exp (-(ballCarrier.y ^ 2) / 400)
  let pressure := calculatePressure ballCarrier gameState.opponentPlayers
  let withPressure :=
    if pressure.underHighPressure then withAngle * 0.6
    else if 0.5 < pressure.pressureScore then withAngle * 0.8
    else withAngle
  min 0.9 (max 0.01 withPressure)

/-- `driveProbability(ballCarrier, gameState)` (`actionModel.js` 91-146).
The JS look-ahead control query passes `gameState.ball || ballCarrier`; the
snapshot always carries a ball, so the fallback never fires and `gameState.ball`
is used. -/
noncomputable def driveProbability (ballCarrier : Player) (gameState : GameState) : ℝ :=
  let speed := Real.sqrt (ballCarrier.vx ^ 2 + ballCarrier.vy ^ 2)
  let pressure := calculatePressure ballCarrier gameState.opponentPlayers
  let base : ℝ := if 4 < speed then 0.5 else if 2 < speed then 0.4 else 0.3
  let dirX := if 0.5 < speed then ballCarrier.vx / speed
    else if gameState.attackingRight then 1 else -1
  let dirY := if 0.5 < speed then ballCarrier.vy / speed else 0
  let spaceAhead := pitchControlAtPoint (ballCarrier.x + dirX * 5) (ballCarrier.y + dirY * 5)
    gameState.teamPlayers gameState.opponentPlayers gameState.ball
  let withSpace := base * (0.5 + spaceAhead)
  let withPressure :=
    if pressure.underHighPressure then withSpace * 0.4
    else if 0.6 < pressure.pressureScore then withSpace * 0.6
    else withSpace
  let attackingX := if gameState.attackingRight then ballCarrier.x else -ballCarrier.x
  let withPosition := if attackingX < -20 then withPressure * 0.7 else withPressure
  min 0.8 (max 0.1 withPosition)

/-- The three action probabilities. -/
structure ActionProbs where
  pass : ℝ
  drive : ℝ
  shot : ℝ

/-- `getActionProbabilities(ballCarrier, gameState)` (`actionModel.js`
175-203): fixed split `{0.6, 0.35, 0.05}` without a carrier; otherwise the
raw probabilities (pass floored at `0.15`) renormalized by their sum.
(The JS `total` local is computed but never used.) -/
noncomputable def getActionProbabilities (ballCarrier : Option Player)
    (gameState : GameState) : ActionProbs :=
  match ballCarrier with
  | none => { pass := 0.6, drive := 0.35, shot := 0.05 }
  | some carrier =>
    let pShot := shotProbability carrier gameState
    let pDrive := driveProbability carrier gameState
    let pPass := max 0.15 (1 - pShot - pDrive)
    let sum := pShot + pDrive + pPass
    { pass := pPass / sum, drive := pDrive / sum, shot := pShot / sum }

/-! ## Formation line detector (`defensiveLines.js` lines 24-135)

The clustering pipeline must be executed on concrete inputs, so it is
modelled over `ℚ` (the JS arithmetic involved here is order/mean arithmetic
on coordinates). -/

/-- One defending mover, projected to the fields `detectDefensiveLines`
reads: its identity (the JS assignment key is `player.id || player.jerseyNum`;
loaded players always carry an id) and its x coordinate. -/
structure Defender where
  id : ℕ
  x : ℚ

/-- `Math.abs` on exact rationals. -/
def qAbs (q : ℚ) : ℚ := if q < 0 then -q else q

/-- Scan of the remaining centroids: keep the current best index unless a
strictly smaller distance appears (the JS loop keeps the first argmin). -/
def nearestCentroidAux : List ℚ → ℚ → ℕ → ℕ → ℚ → ℕ
  | [], _, _, best, _ => best
  | c :: rest, p, i, best, bestDist =>
    if qAbs (p - c) < bestDist then nearestCentroidAux rest p (i + 1) i (qAbs (p - c))
    else nearestCentroidAux rest p (i + 1) best bestDist

/-- Index of the nearest centroid (first wins on ties), as in the
`forEach` scans of `kMeans1D` and `detectDefensiveLines`. -/
def nearestCentroid (centroids : List ℚ) (p : ℚ) : ℕ :=
  match centroids with
  | [] => 0
  | c :: rest => nearestCentroidAux rest p 1 0 (qAbs (p - c))

/-- Walk over the centroids with their index: each centroid moves to the
mean of the positions assigned to it, empty clusters keep their centroid. -/
def updateCentroidsAux (centroids positions : List ℚ) : ℕ → List ℚ → List ℚ
  | _, [] => []
  | i, c :: rest =>
    let members := positions.filter fun p => nearestCentroid centroids p == i
    (if members.isEmpty then c else members.sum / (members.length : ℚ)) ::
      updateCentroidsAux centroids positions (i + 1) rest

/-- One assignment/update step of `kMeans1D`. -/
def updateCentroids (centroids positions : List ℚ) : List ℚ :=
  updateCentroidsAux centroids positions 0 centroids

/-- `Math.max(...centroids.map(|c - c'|))` of the convergence check. -/
def maxCentroidChange (old new : List ℚ) : ℚ :=
  (old.zipWith (fun a b => qAbs (a - b)) new).foldl max 0

/-- The iteration loop of `kMeans1D` with its iteration cap as fuel; stops
once the largest centroid movement drops below `0.5`. -/
def kMeansLoop : ℕ → List ℚ → List ℚ → List ℚ
  | 0, centroids, _ => centroids
  | n + 1, centroids, positions =>
    let updated := updateCentroids centroids positions
    if maxCentroidChange centroids updated < 0.5 then updated
    else kMeansLoop n updated positions

/-- `Math.min(...positions)` for a list known non-empty at the call site. -/
def listMin : List ℚ → ℚ
  | [] => 0
  | h :: t => t.foldl min h

/-- `Math.max(...positions)`. -/
def listMax : List ℚ → ℚ
  | [] => 0
  | h :: t => t.foldl max h

/-- `kMeans1D(positions, k, maxIterations)` (`defensiveLines.js` 24-76):
sorted input when fewer positions than clusters, otherwise evenly
initialised centroids iterated to convergence and sorted ascending. -/
def kMeans1D (positions : List ℚ) (k : ℕ) (maxIterations : ℕ) : List ℚ :=
  if positions.length < k then List.insertionSort (· ≤ ·) positions
  else
    let mn := listMin positions
    let mx := listMax positions
    let range := mx - mn
    let centroids := (List.range k).map fun (i : ℕ) => mn + range * ((i : ℚ) + 0.5) / k
    List.insertionSort (· ≤ ·) (kMeansLoop maxIterations centroids positions)

/-- The record returned by `detectDefensiveLines`.  With fewer than three
defenders the JS `actualLines[1]` / `actualLines[2]` are `undefined`,
modelled by `Option`. -/
structure DefensiveLinesResult where
  lines : List ℚ
  firstLine : Option ℚ
  secondLine : Option ℚ
  thirdLine : Option ℚ
  assignments : List (ℕ × ℕ)

/-- `detectDefensiveLines(defenders, attackingRight)` (`defensiveLines.js`
86-135): cluster the (sign-flipped when attacking left) x coordinates into
three lines, map them back (`lines.map(x => -x).reverse()` when attacking
left), and assign each defender to its nearest line (1-indexed). -/
def detectDefensiveLines (defenders : List Defender) (attackingRight : Bool) :
    DefensiveLinesResult :=
  if defenders.isEmpty then
    { lines := [0, 0, 0], firstLine := some 0, secondLine := some 0,
      thirdLine := some 0, assignments := [] }
  else
    let xPositions := defenders.map fun d => if attackingRight then d.x else -d.x
    let lines := kMeans1D xPositions 3 50
    let actualLines := if attackingRight then lines else (lines.map fun x => -x).reverse
    let assignments := defenders.map fun player =>
      let playerX := if attackingRight then player.x else -player.x
      (player.id, nearestCentroid lines playerX + 1)
    { lines := actualLines
      firstLine := actualLines.get? 0
      secondLine := actualLines.get? 1
      thirdLine := actualLines.get? 2
      assignments := assignments }

/-- Reading a coordinate in along-attack-axis terms: sign-flipped when
attacking the negative direction. -/
def axisCoord (attackingRight : Bool) (x : ℚ) : ℚ :=
  if attackingRight then x else -x

/-! ## Concrete snapshots used by counterexamples and witnesses -/

/-- A carrier at the origin. -/
def demoCarrier : Player := ⟨1, 10, 0, 0, 0, 0, "CM"⟩

/-- A teammate ahead of the carrier. -/
def demoMate : Player := ⟨2, 11, 5, 5, 0, 0, "ST"⟩

/-- A lone opponent away from the pass lanes used below. -/
def demoOpponent : Player := ⟨3, 4, 0, 30, 0, 0, "CB"⟩

/-- A snapshot whose possessing side has no movers except in `teamPlayers`
as stated per use. -/
def demoState : GameState := ⟨[demoCarrier, demoMate], [], ⟨0, 0⟩, true⟩

/-- A snapshot with an empty possessing side and one opponent: its control
is exactly `0` everywhere, making receiver values exactly computable. -/
def demoEmptyTeamState : GameState := ⟨[], [demoOpponent], ⟨0, 0⟩, true⟩

/-- Forward receiver, 20 m ahead of `demoCarrier`. -/
def demoForwardReceiver : Player := ⟨5, 19, 20, 0, 0, 0, "ST"⟩

/-- Backward receiver, 20 m behind `demoCarrier`. -/
def demoBackwardReceiver : Player := ⟨6, 5, -20, 0, 0, 0, "CB"⟩

/-- The lone mover of the degenerate control configuration, at the origin. -/
def demoLoneMover : Player := ⟨7, 1, 0, 0, 0, 0, "ST"⟩

/-- A tiny 1×1 control surface used to exercise the out-of-grid lookup. -/
def demoControlSurface : PitchControlSurface := ⟨[[0.7]], 1, 1, 1, 0, 0⟩

/-- A tiny 1×1 value surface over `demoControlSurface`. -/
def demoValueSurface : EPVSurface := ⟨[[0.2]], 1, 1, 1, 0, 0, 0.2, 0.2, demoControlSurface⟩

/-! ### First lemmas about the interceptor -/

theorem lookup_getD_pos (l : List (String × ℝ)) (pos : String) (d : ℝ) (hd : 0 < d)
    (h : ∀ kv ∈ l, 0 < kv.2) : 0 < (l.lookup pos).getD d := by
  induction l with
  | nil => simpa [List.lookup]
  | cons kv t ih =>
    obtain ⟨k, v⟩ := kv
    cases hbeq : (pos == k) with
    | true =>
      simp [List.lookup, hbeq]
      exact h (k, v) (by simp)
    | false =>
      simp [List.lookup, hbeq]
      exact ih fun kv hkv => h kv (by simp [hkv])

theorem positionSpeedFactor_pos (pos : String) : 0 < positionSpeedFactor pos := by
  apply lookup_getD_pos _ _ _ (by norm_num)
  intro kv hkv
  fin_cases hkv <;> norm_num

theorem maxSpeedOf_pos (p : Player) : 0 < maxSpeedOf p := by
  have h := positionSpeedFactor_pos p.position
  unfold maxSpeedOf PLAYER_MAX_SPEED
  nlinarith

theorem interceptDistance_nonneg (p : Player) (tx ty : ℝ) :
    0 ≤ interceptDistance p tx ty := Real.sqrt_nonneg _

/-- Once the reaction branch is taken, the result is at least the reaction
time: the acceleration-phase correction can be negative (when the current
velocity component exceeds the role cap), but it is always outweighed by
the constant-speed term. -/
theorem timeToIntercept_ge_reaction (p : Player) (tx ty : ℝ)
    (h : ¬ interceptDistance p tx ty < 0.5) :
    0.7 ≤ timeToIntercept p tx ty := by
  have hm : 0 < maxSpeedOf p := maxSpeedOf_pos p
  have hd : (0.5 : ℝ) ≤ interceptDistance p tx ty := not_lt.mp h
  set m := maxSpeedOf p with hm_def
  set v := velocityTowardsTarget p tx ty with hv_def
  set d := interceptDistance p tx ty with hd_def
  have haT : accelTimeOf p tx ty = (m - max 0 v) / PLAYER_ACCELERATION := rfl
  have haD : accelDistanceOf p tx ty =
      v * accelTimeOf p tx ty +
        0.5 * PLAYER_ACCELERATION * accelTimeOf p tx ty * accelTimeOf p tx ty := rfl
  set aT := accelTimeOf p tx ty with haT_def
  set aD := accelDistanceOf p tx ty with haD_def
  have hA : PLAYER_ACCELERATION = (3.5 : ℝ) := rfl
  -- the key algebraic fact: `m * aT - aD ≥ 0`
  have hkey : 0 ≤ m * aT - aD := by
    rcases le_total 0 v with hv0 | hv0
    · have hmax : max 0 v = v := max_eq_right hv0
      have heq : m * aT - aD = (m - v) ^ 2 / 7 := by
        rw [haD, haT, hmax, hA]
        ring
      rw [heq]
      positivity
    · have hmax : max 0 v = 0 := max_eq_left hv0
      have heq : m * aT - aD = m * (m - 2 * v) / 7 := by
        rw [haD, haT, hmax, hA]
        ring
      rw [heq]
      apply div_nonneg _ (by norm_num)
      apply mul_nonneg hm.le
      linarith
  have h1 : (d - aD) / m ≤ max 0 (d - aD) / m := by
    gcongr
    exact le_max_right _ _
  have h2 : 0 ≤ aT + (d - aD) / m := by
    have heq : aT + (d - aD) / m = (d + (m * aT - aD)) / m := by
      field_simp
      ring
    rw [heq]
    apply div_nonneg _ hm.le
    linarith
  have h3 : 0 ≤ aT + max 0 (d - aD) / m := by linarith
  have : timeToIntercept p tx ty = REACTION_TIME + aT + max 0 (d - aD) / m := by
    rw [timeToIntercept, if_neg h]
  rw [this, REACTION_TIME]
  linarith

theorem timeToIntercept_nonneg_all (p : Player) (tx ty : ℝ) :
    0 ≤ timeToIntercept p tx ty := by
  by_cases h : interceptDistance p tx ty < 0.5
  · rw [timeToIntercept, if_pos h]
  · have := timeToIntercept_ge_reaction p tx ty h
    linarith

/-- Targets on a fixed unit ray from the mover: the distance is the ray
parameter. -/
theorem interceptDistance_ray (p : Player) (ux uy d : ℝ)
    (hu : ux ^ 2 + uy ^ 2 = 1) (hd : 0 ≤ d) :
    interceptDistance p (p.x + d * ux) (p.y + d * uy) = d := by
  have h1 : (p.x + d * ux - p.x) * (p.x + d * ux - p.x) +
      (p.y + d * uy - p.y) * (p.y + d * uy - p.y) = d ^ 2 := by
    have h2 : (p.x + d * ux - p.x) * (p.x + d * ux - p.x) +
        (p.y + d * uy - p.y) * (p.y + d * uy - p.y) = d ^ 2 * (ux ^ 2 + uy ^ 2) := by
      ring
    rw [h2, hu, mul_one]
  rw [interceptDistance, h1, Real.sqrt_sq hd]

/-- On a fixed unit ray the velocity component towards the target does not
depend on the distance. -/
theorem velocityTowardsTarget_ray (p : Player) (ux uy d : ℝ)
    (hu : ux ^ 2 + uy ^ 2 = 1) (hd : 0 < d) :
    velocityTowardsTarget p (p.x + d * ux) (p.y + d * uy) = p.vx * ux + p.vy * uy := by
  rw [velocityTowardsTarget, interceptDistance_ray p ux uy d hu hd.le]
  rw [show p.x + d * ux - p.x = d * ux by ring, show p.y + d * uy - p.y = d * uy by ring,
    mul_comm d ux, mul_comm d uy, mul_div_assoc, mul_div_assoc, div_self hd.ne',
    mul_one, mul_one]

/-- Closed form of `timeToIntercept` along a fixed unit ray, once past the
`0.5` m branch. -/
theorem timeToIntercept_ray (p : Player) (ux uy d : ℝ)
    (hu : ux ^ 2 + uy ^ 2 = 1) (h05 : 0.5 ≤ d) :
    timeToIntercept p (p.x + d * ux) (p.y + d * uy) =
      REACTION_TIME +
        (maxSpeedOf p - max 0 (p.vx * ux + p.vy * uy)) / PLAYER_ACCELERATION +
        max 0 (d -
          ((p.vx * ux + p.vy * uy) *
              ((maxSpeedOf p - max 0 (p.vx * ux + p.vy * uy)) / PLAYER_ACCELERATION) +
            0.5 * PLAYER_ACCELERATION *
              ((maxSpeedOf p - max 0 (p.vx * ux + p.vy * uy)) / PLAYER_ACCELERATION) *
              ((maxSpeedOf p - max 0 (p.vx * ux + p.vy * uy)) / PLAYER_ACCELERATION))) /
          maxSpeedOf p := by
  have hd0 : (0 : ℝ) < d := by linarith
  have hdist := interceptDistance_ray p ux uy d hu hd0.le
  have hvel := velocityTowardsTarget_ray p ux uy d hu hd0
  rw [timeToIntercept, accelTimeOf, accelDistanceOf, accelTimeOf, hdist, hvel,
    if_neg (not_lt.mpr h05)]

/-- Monotonicity of `timeToIntercept` in the ray parameter. -/
theorem timeToIntercept_ray_mono (p : Player) (ux uy d₁ d₂ : ℝ)
    (hu : ux ^ 2 + uy ^ 2 = 1) (h1 : 0 ≤ d₁) (h12 : d₁ ≤ d₂) :
    timeToIntercept p (p.x + d₁ * ux) (p.y + d₁ * uy) ≤
      timeToIntercept p (p.x + d₂ * ux) (p.y + d₂ * uy) := by
  rcases lt_or_le d₂ 0.5 with h2s | h2l
  · have e1 : timeToIntercept p (p.x + d₁ * ux) (p.y + d₁ * uy) = 0 := by
      rw [timeToIntercept, if_pos]
      rw [interceptDistance_ray p ux uy d₁ hu h1]
      linarith
    have e2 : timeToIntercept p (p.x + d₂ * ux) (p.y + d₂ * uy) = 0 := by
      rw [timeToIntercept, if_pos]
      rw [interceptDistance_ray p ux uy d₂ hu (le_trans h1 h12)]
      linarith
    rw [e1, e2]
  · rcases lt_or_le d₁ 0.5 with h1s | h1l
    · have e1 : timeToIntercept p (p.x + d₁ * ux) (p.y + d₁ * uy) = 0 := by
        rw [timeToIntercept, if_pos]
        rw [interceptDistance_ray p ux uy d₁ hu h1]
        linarith
      rw [e1]
      exact timeToIntercept_nonneg_all p _ _
    · rw [timeToIntercept_ray p ux uy d₁ hu h1l, timeToIntercept_ray p ux uy d₂ hu h2l]
      have hm : 0 < maxSpeedOf p := maxSpeedOf_pos p
      gcongr

/-- C4: for a fixed velocity state (fixed velocity vector, fixed unit
direction towards the target), `timeToIntercept` is non-negative and
non-decreasing in the straight-line distance to the target. -/
theorem timeToIntercept_nonneg_monotone :
    (∀ (p : Player) (targetX targetY : ℝ), 0 ≤ timeToIntercept p targetX targetY) ∧
    ∀ (p : Player) (ux uy d₁ d₂ : ℝ), ux ^ 2 + uy ^ 2 = 1 → 0 ≤ d₁ → d₁ ≤ d₂ →
      timeToIntercept p (p.x + d₁ * ux) (p.y + d₁ * uy) ≤
        timeToIntercept p (p.x + d₂ * ux) (p.y + d₂ * uy) :=
  ⟨timeToIntercept_nonneg_all, fun p ux uy d₁ d₂ hu h1 h12 =>
    timeToIntercept_ray_mono p ux uy d₁ d₂ hu h1 h12⟩

/-- Instantiation of the monotonicity part of `timeToIntercept_nonneg_monotone`
at a concrete mover and ray. -/
theorem timeToIntercept_nonneg_monotone_witness :
    timeToIntercept ⟨1, 7, 0, 0, 0, 0, "CM"⟩ (0 + 1 * 1) (0 + 1 * 0) ≤
      timeToIntercept ⟨1, 7, 0, 0, 0, 0, "CM"⟩ (0 + 2 * 1) (0 + 2 * 0) :=
  timeToIntercept_nonneg_monotone.2 ⟨1, 7, 0, 0, 0, 0, "CM"⟩ 1 0 1 2
    (by norm_num) (by norm_num) (by norm_num)

/-- C10: whenever the target is at least `0.5` m away the result is at least
the reaction time `0.7` s; consequently the output is never in the open
interval `(0, 0.7)`. -/
theorem timeToIntercept_reaction_floor :
    ∀ (p : Player) (targetX targetY : ℝ),
      (0.5 ≤ interceptDistance p targetX targetY →
        0.7 ≤ timeToIntercept p targetX targetY) ∧
      (timeToIntercept p targetX targetY = 0 ∨
        0.7 ≤ timeToIntercept p targetX targetY) := by
  intro p tx ty
  refine ⟨fun h => timeToIntercept_ge_reaction p tx ty (not_lt.mpr h), ?_⟩
  by_cases h : interceptDistance p tx ty < 0.5
  · left
    rw [timeToIntercept, if_pos h]
  · right
    exact timeToIntercept_ge_reaction p tx ty h

/-- Instantiation of `timeToIntercept_reaction_floor` at a concrete mover and
target `1` m away. -/
theorem timeToIntercept_reaction_floor_witness :
    0.7 ≤ timeToIntercept ⟨2, 9, 0, 0, 0, 0, "ST"⟩ 1 0 := by
  apply (timeToIntercept_reaction_floor ⟨2, 9, 0, 0, 0, 0, "ST"⟩ 1 0).1
  have h : interceptDistance ⟨2, 9, 0, 0, 0, 0, "ST"⟩ 1 0 = 1 := by
    rw [interceptDistance]
    rw [show ((1 : ℝ) - 0) * ((1 : ℝ) - 0) + ((0 : ℝ) - 0) * ((0 : ℝ) - 0) = 1 by norm_num]
    exact Real.sqrt_one
  rw [h]
  norm_num

/-! ### Spatial control field: bounds and degenerate cases -/

theorem playerInfluence_pos (pl : Player) (x y ballTime : ℝ) :
    0 < playerInfluence pl x y ballTime := by
  rw [playerInfluence]
  positivity

theorem influenceSum_nonneg (players : List Player) (x y ballTime : ℝ) :
    0 ≤ influenceSum players x y ballTime := by
  rw [influenceSum]
  apply List.sum_nonneg
  intro a ha
  simp only [List.mem_map] at ha
  obtain ⟨pl, _, rfl⟩ := ha
  exact (playerInfluence_pos pl x y ballTime).le

/-- C5: `pitchControlAtPoint` always returns a probability in `[0, 1]`, and
returns exactly `0.5` when both mover collections are empty. -/
theorem pitchControlAtPoint_probability_bounds :
    ∀ (x y : ℝ) (ball : Point),
      (∀ (teamPlayers opponentPlayers : List Player),
        0 ≤ pitchControlAtPoint x y teamPlayers opponentPlayers ball ∧
          pitchControlAtPoint x y teamPlayers opponentPlayers ball ≤ 1) ∧
      pitchControlAtPoint x y [] [] ball = 0.5 := by
  intro x y ball
  constructor
  · intro team opp
    simp only [pitchControlAtPoint]
    have h1 : 0 ≤ influenceSum team x y (ballTravelTime ball x y) :=
      influenceSum_nonneg team x y _
    have h2 : 0 ≤ influenceSum opp x y (ballTravelTime ball x y) :=
      influenceSum_nonneg opp x y _
    by_cases h : influenceSum team x y (ballTravelTime ball x y) +
        influenceSum opp x y (ballTravelTime ball x y) = 0
    · rw [if_pos h]
      norm_num
    · rw [if_neg h]
      have hpos : 0 < influenceSum team x y (ballTravelTime ball x y) +
          influenceSum opp x y (ballTravelTime ball x y) :=
        lt_of_le_of_ne (by linarith) (Ne.symm h)
      exact ⟨div_nonneg h1 hpos.le, div_le_one_of_le₀ (by linarith) hpos.le⟩
  · simp only [pitchControlAtPoint, influenceSum, List.map_nil, List.sum_nil]
    norm_num

/-- C9: one possessing mover at the origin, no opponents, ball at the
origin: control at the origin is exactly `1` (team influence `1/2`,
opponent influence `0`, fallback branch not taken). -/
theorem pitchControlAtPoint_lone_mover_full_control :
    pitchControlAtPoint 0 0 [demoLoneMover] [] ⟨0, 0⟩ = 1 := by
  have hball : ballTravelTime ⟨0, 0⟩ 0 0 = 0 := by
    rw [ballTravelTime]
    norm_num
  have htti : timeToIntercept demoLoneMover 0 0 = 0 := by
    rw [timeToIntercept, if_pos]
    rw [interceptDistance, demoLoneMover]
    norm_num
  simp only [pitchControlAtPoint, influenceSum, List.map_cons, List.map_nil,
    List.sum_cons, List.sum_nil, playerInfluence, hball, htti]
  norm_num [Real.exp_zero]

/-! ### Possession value -/

/-- C6: `calculateEPV` is the clamped product of the progression potential
and the divergent control contribution, hence always in `[-1, 1]`. -/
theorem calculateEPV_formula_and_bounds :
    ∀ (x y : ℝ) (gameState : GameState) (surface : Option PitchControlSurface),
      calculateEPV x y gameState surface =
        max (-1) (min 1 (progressionValue x y gameState.attackingRight *
          ((controlForEPV x y gameState surface - 0.5) * 2))) ∧
      -1 ≤ calculateEPV x y gameState surface ∧
        calculateEPV x y gameState surface ≤ 1 := by
  intro x y gameState surface
  refine ⟨rfl, le_max_left _ _, ?_⟩
  exact max_le (by norm_num) (min_le_left _ _)

/-! ### Out-of-grid lookups -/

/-- C7: a lookup whose floored cell index falls outside the grid returns the
neutral value, `0.5` for a Control Field and `0` for a Value Field. -/
theorem grid_lookup_out_of_bounds_neutral :
    ∀ (controlSurface : PitchControlSurface) (valueSurface : EPVSurface) (x y : ℝ),
      (gridIndex controlSurface.pitchWidth controlSurface.resolution y < 0 ∨
        (controlSurface.grid.length : ℤ) ≤
          gridIndex controlSurface.pitchWidth controlSurface.resolution y ∨
        gridIndex controlSurface.pitchLength controlSurface.resolution x < 0 ∨
        ((controlSurface.grid.headD []).length : ℤ) ≤
          gridIndex controlSurface.pitchLength controlSurface.resolution x) →
      (gridIndex valueSurface.pitchWidth valueSurface.resolution y < 0 ∨
        (valueSurface.grid.length : ℤ) ≤
          gridIndex valueSurface.pitchWidth valueSurface.resolution y ∨
        gridIndex valueSurface.pitchLength valueSurface.resolution x < 0 ∨
        ((valueSurface.grid.headD []).length : ℤ) ≤
          gridIndex valueSurface.pitchLength valueSurface.resolution x) →
      getPitchControlAt controlSurface x y = 0.5 ∧ getEPVAt valueSurface x y = 0 := by
  intro controlSurface valueSurface x y h1 h2
  constructor
  · simp only [getPitchControlAt]
    rw [if_pos h1]
  · simp only [getEPVAt]
    rw [if_pos h2]

/-- Instantiation of `grid_lookup_out_of_bounds_neutral` at 1×1 surfaces and
the coordinate `x = 5`, whose column index `5` is outside both grids. -/
theorem grid_lookup_out_of_bounds_neutral_witness :
    getPitchControlAt demoControlSurface 5 0 = 0.5 ∧ getEPVAt demoValueSurface 5 0 = 0 := by
  apply grid_lookup_out_of_bounds_neutral demoControlSurface demoValueSurface 5 0
  · right; right; right
    simp only [demoControlSurface, gridIndex]
    norm_num
  · right; right; right
    simp only [demoValueSurface, gridIndex]
    norm_num

/-! ### Action likelihood -/

theorem shotProbability_ge (ballCarrier : Player) (gameState : GameState) :
    0.01 ≤ shotProbability ballCarrier gameState := by
  simp only [shotProbability]
  exact le_min (by norm_num) (le_max_left _ _)

theorem driveProbability_ge (ballCarrier : Player) (gameState : GameState) :
    0.1 ≤ driveProbability ballCarrier gameState := by
  simp only [driveProbability]
  exact le_min (by norm_num) (le_max_left _ _)

/-- C8: the three renormalized action probabilities sum to exactly `1`, with
and without a carrier. -/
theorem getActionProbabilities_sum_one :
    ∀ (ballCarrier : Option Player) (gameState : GameState),
      (getActionProbabilities ballCarrier gameState).pass +
        (getActionProbabilities ballCarrier gameState).drive +
        (getActionProbabilities ballCarrier gameState).shot = 1 := by
  intro ballCarrier gameState
  match ballCarrier with
  | none =>
    simp only [getActionProbabilities]
    norm_num
  | some carrier =>
    simp only [getActionProbabilities]
    have ha : 0.01 ≤ shotProbability carrier gameState := shotProbability_ge carrier gameState
    have hb : 0.1 ≤ driveProbability carrier gameState := driveProbability_ge carrier gameState
    have hp : (0.15 : ℝ) ≤ max 0.15 (1 - shotProbability carrier gameState -
        driveProbability carrier gameState) := le_max_left _ _
    have hsum : shotProbability carrier gameState + driveProbability carrier gameState +
        max 0.15 (1 - shotProbability carrier gameState -
          driveProbability carrier gameState) ≠ 0 := by
      have : (0 : ℝ) < shotProbability carrier gameState + driveProbability carrier gameState +
          max 0.15 (1 - shotProbability carrier gameState -
            driveProbability carrier gameState) := by linarith
      exact this.ne'
    rw [div_add_div_same, div_add_div_same]
    rw [show max 0.15 (1 - shotProbability carrier gameState -
        driveProbability carrier gameState) + driveProbability carrier gameState +
        shotProbability carrier gameState =
        shotProbability carrier gameState + driveProbability carrier gameState +
        max 0.15 (1 - shotProbability carrier gameState -
          driveProbability carrier gameState) by ring]
    exact div_self hsum

/-! ### Formation lines -/

/-- C1 (code behaviour at the failing input): three defenders at
`x = 10, 20, 30` with `attackingRight = false` yield lines `10, 20, 30`,
whose along-attack-axis readings `-10, -20, -30` are strictly decreasing:
the claimed ordering `line₁ ≤ line₂ ≤ line₃` fails. -/
theorem detectDefensiveLines_axis_order_violation :
    (detectDefensiveLines [⟨1, 10⟩, ⟨2, 20⟩, ⟨3, 30⟩] false).firstLine = some 10 ∧
    (detectDefensiveLines [⟨1, 10⟩, ⟨2, 20⟩, ⟨3, 30⟩] false).secondLine = some 20 ∧
    (detectDefensiveLines [⟨1, 10⟩, ⟨2, 20⟩, ⟨3, 30⟩] false).thirdLine = some 30 ∧
    ¬(axisCoord false 10 ≤ axisCoord false 20 ∧
      axisCoord false 20 ≤ axisCoord false 30) := by
  have hu1 : updateCentroids [-80/3, -20, -40/3] [-10, -20, -30] = [-30, -20, -10] := by
    norm_num [updateCentroids, updateCentroidsAux, nearestCentroid, nearestCentroidAux,
      qAbs, List.filter_cons, beq_iff_eq]
  have hm1 : maxCentroidChange [-80/3, -20, -40/3] [-30, -20, -10] = 10/3 := by
    norm_num [maxCentroidChange, qAbs, max_def]
  have hu2 : updateCentroids [-30, -20, -10] [-10, -20, -30] = [-30, -20, -10] := by
    norm_num [updateCentroids, updateCentroidsAux, nearestCentroid, nearestCentroidAux,
      qAbs, List.filter_cons, beq_iff_eq]
  have hm2 : maxCentroidChange [-30, -20, -10] [-30, -20, -10] = 0 := by
    norm_num [maxCentroidChange, qAbs, max_def]
  have hloop : kMeansLoop 50 [-80/3, -20, -40/3] [-10, -20, -30] = [-30, -20, -10] := by
    rw [show (50 : ℕ) = 49 + 1 from rfl, kMeansLoop, hu1, hm1, if_neg (by norm_num),
      show (49 : ℕ) = 48 + 1 from rfl, kMeansLoop, hu2, hm2, if_pos (by norm_num)]
  have hinit : (List.range 3).map
      (fun (i : ℕ) => listMin [-10, -20, -30] +
        (listMax [-10, -20, -30] - listMin [-10, -20, -30]) * ((i : ℚ) + 0.5) / 3) =
      [-80/3, -20, -40/3] := by
    norm_num [listMin, listMax, List.range_succ, min_def, max_def]
  have hkm : kMeans1D [-10, -20, -30] 3 50 = [-30, -20, -10] := by
    simp only [kMeans1D, List.length_cons, List.length_nil, Nat.cast_ofNat]
    rw [if_neg (by norm_num)]
    rw [hinit, hloop]
    norm_num [List.insertionSort, List.orderedInsert]
  simp only [detectDefensiveLines, List.isEmpty_cons, Bool.false_eq_true, if_false,
    List.map_cons, List.map_nil, if_false, Bool.false_eq_true]
  norm_num [hkm, axisCoord]

/-! ### Pass ranking order -/

/-- C2 (counterexample): with a duplicated teammate, both produced options
carry the same `epvAdded`, so consecutive strict descent
(`a.epvAdded > b.epvAdded` between neighbours) fails on the output of
`findPassOptions`. -/
theorem findPassOptions_strict_descending_fails :
    ¬ List.Chain' (fun a b : PassOption => b.epvAdded < a.epvAdded)
      (findPassOptions (some demoCarrier) [demoMate, demoMate] demoState) := by
  simp [findPassOptions, List.insertionSort, List.orderedInsert, List.chain'_cons,
    lt_self_iff_false]

/-- C2 (amended): the ranked pass options are sorted non-increasingly
(descending with ties allowed) by `epvAdded`, for every carrier and every
teammate list. -/
theorem findPassOptions_sorted_nonincreasing :
    ∀ (ballCarrier : Option Player) (teammates : List Player) (gameState : GameState),
      List.Sorted (fun a b : PassOption => b.epvAdded ≤ a.epvAdded)
        (findPassOptions ballCarrier teammates gameState) := by
  intro ballCarrier teammates gameState
  match ballCarrier with
  | none => simp [findPassOptions]
  | some carrier =>
    simp only [findPassOptions]
    by_cases h : teammates.isEmpty
    · rw [if_pos h]
      exact List.sorted_nil
    · rw [if_neg h]
      haveI : IsTotal PassOption (fun a b => b.epvAdded ≤ a.epvAdded) :=
        ⟨fun a b => le_total b.epvAdded a.epvAdded⟩
      haveI : IsTrans PassOption (fun a b => b.epvAdded ≤ a.epvAdded) :=
        ⟨fun _ _ _ h1 h2 => le_trans h2 h1⟩
      exact List.sorted_insertionSort _ _

/-! ### Pass direction sensitivity -/

/-- With no movers on the possessing side and at least one opponent, the
control at any point is exactly `0`. -/
theorem pitchControlAtPoint_empty_team (x y : ℝ) (opp : Player) (ball : Point) :
    pitchControlAtPoint x y [] [opp] ball = 0 := by
  simp only [pitchControlAtPoint, influenceSum, List.map_nil, List.sum_nil,
    List.map_cons, List.sum_cons]
  have hpos : 0 < playerInfluence opp x y (ballTravelTime ball x y) :=
    playerInfluence_pos opp x y _
  rw [if_neg (by intro heq; nlinarith), zero_div]

/-- C3 (counterexample): equidistant forward and backward receivers from the
carrier at the origin, attacking right, in a snapshot whose possessing side
has no movers: the direction-adjusted receiver value of the forward receiver
is strictly *smaller* than that of the backward receiver (both raw values
are negative, and the forward bonus amplifies the loss). -/
theorem evaluatePass_direction_sensitivity_fails :
    Real.sqrt ((demoForwardReceiver.x - demoCarrier.x) ^ 2 +
        (demoForwardReceiver.y - demoCarrier.y) ^ 2) =
      Real.sqrt ((demoBackwardReceiver.x - demoCarrier.x) ^ 2 +
        (demoBackwardReceiver.y - demoCarrier.y) ^ 2) ∧
    0 < passDirectionOf demoCarrier demoForwardReceiver demoEmptyTeamState.attackingRight ∧
    passDirectionOf demoCarrier demoBackwardReceiver demoEmptyTeamState.attackingRight < 0 ∧
    (evaluatePass demoCarrier demoForwardReceiver demoEmptyTeamState none).receiverEPV <
      (evaluatePass demoCarrier demoBackwardReceiver demoEmptyTeamState none).receiverEPV := by
  refine ⟨by norm_num [demoForwardReceiver, demoBackwardReceiver, demoCarrier], ?_, ?_, ?_⟩
  · norm_num [passDirectionOf, demoCarrier, demoForwardReceiver, demoEmptyTeamState]
  · norm_num [passDirectionOf, demoCarrier, demoBackwardReceiver, demoEmptyTeamState]
  · have hf : pitchControlAtPoint 20 0 [] [demoOpponent] ⟨20, 0⟩ = 0 :=
      pitchControlAtPoint_empty_team 20 0 demoOpponent ⟨20, 0⟩
    have hb : pitchControlAtPoint (-20) 0 [] [demoOpponent] ⟨-20, 0⟩ = 0 :=
      pitchControlAtPoint_empty_team (-20) 0 demoOpponent ⟨-20, 0⟩
    simp only [evaluatePass, receiverValue, calculateEPV, controlForEPV, passDirectionOf,
      demoEmptyTeamState, demoCarrier, demoForwardReceiver, demoBackwardReceiver]
    rw [hf, hb]
    norm_num [progressionValue, directionFactor, min_def, max_def]

theorem directionFactor_gt_one (passDirection : ℝ) (h : 0 < passDirection) :
    1 < directionFactor passDirection := by
  rw [directionFactor]
  by_cases h10 : 10 < passDirection
  · rw [if_pos h10]
    have hmin := lt_min (show (0 : ℝ) < 0.2 by norm_num)
      (show 0 < passDirection / 50 by positivity)
    linarith
  · rw [if_neg h10, if_pos h]
    have : 0 < passDirection / 50 := by positivity
    linarith

theorem directionFactor_lt_one (passDirection : ℝ) (h : passDirection < 0) :
    directionFactor passDirection < 1 := by
  rw [directionFactor]
  rw [if_neg (by linarith : ¬ (10 : ℝ) < passDirection),
    if_neg (by linarith : ¬ (0 : ℝ) < passDirection)]
  by_cases h10 : (-10 : ℝ) < passDirection
  · rw [if_pos h10]
    have : passDirection / 30 < 0 := div_neg_of_neg_of_pos h (by norm_num)
    linarith
  · rw [if_neg h10]
    apply max_lt (by norm_num)
    have hle : passDirection ≤ -10 := not_lt.mp h10
    have h2 : passDirection / 50 ≤ (-10 : ℝ) / 50 := by gcongr
    linarith

/-- C3 (amended): for receivers equidistant from the passer, one strictly
ahead and one strictly behind along the attack axis, the direction factor of
the forward pass strictly exceeds the backward one; the direction-adjusted
receiver values compare the same way whenever the two raw receiver values
agree and are strictly positive. -/
theorem evaluatePass_directionFactor_forward_gt_backward :
    ∀ (gameState : GameState) (passer forwardReceiver backwardReceiver : Player)
      (epvSurface : Option EPVSurface),
      Real.sqrt ((forwardReceiver.x - passer.x) ^ 2 +
          (forwardReceiver.y - passer.y) ^ 2) =
        Real.sqrt ((backwardReceiver.x - passer.x) ^ 2 +
          (backwardReceiver.y - passer.y) ^ 2) →
      0 < passDirectionOf passer forwardReceiver gameState.attackingRight →
      passDirectionOf passer backwardReceiver gameState.attackingRight < 0 →
      (evaluatePass passer backwardReceiver gameState epvSurface).directionFactor <
        (evaluatePass passer forwardReceiver gameState epvSurface).directionFactor ∧
      ((evaluatePass passer forwardReceiver gameState epvSurface).rawReceiverEPV =
          (evaluatePass passer backwardReceiver gameState epvSurface).rawReceiverEPV →
        0 < (evaluatePass passer forwardReceiver gameState epvSurface).rawReceiverEPV →
        (evaluatePass passer backwardReceiver gameState epvSurface).receiverEPV <
          (evaluatePass passer forwardReceiver gameState epvSurface).receiverEPV) := by
  intro gameState passer forwardReceiver backwardReceiver epvSurface _ hf hb
  have h1 : directionFactor (passDirectionOf passer backwardReceiver
      gameState.attackingRight) < 1 := directionFactor_lt_one _ hb
  have h2 : 1 < directionFactor (passDirectionOf passer forwardReceiver
      gameState.attackingRight) := directionFactor_gt_one _ hf
  have hdb : (evaluatePass passer backwardReceiver gameState epvSurface).directionFactor =
      directionFactor (passDirectionOf passer backwardReceiver gameState.attackingRight) :=
    rfl
  have hdf : (evaluatePass passer forwardReceiver gameState epvSurface).directionFactor =
      directionFactor (passDirectionOf passer forwardReceiver gameState.attackingRight) :=
    rfl
  constructor
  · rw [hdb, hdf]
    linarith
  · intro hraw hpos
    have heb : (evaluatePass passer backwardReceiver gameState epvSurface).receiverEPV =
        receiverValue backwardReceiver gameState epvSurface *
          directionFactor (passDirectionOf passer backwardReceiver
            gameState.attackingRight) := rfl
    have hef : (evaluatePass passer forwardReceiver gameState epvSurface).receiverEPV =
        receiverValue forwardReceiver gameState epvSurface *
          directionFactor (passDirectionOf passer forwardReceiver
            gameState.attackingRight) := rfl
    have hrf : (evaluatePass passer forwardReceiver gameState epvSurface).rawReceiverEPV =
        receiverValue forwardReceiver gameState epvSurface := rfl
    have hrb : (evaluatePass passer backwardReceiver gameState epvSurface).rawReceiverEPV =
        receiverValue backwardReceiver gameState epvSurface := rfl
    rw [hrf, hrb] at hraw
    rw [hrf] at hpos
    rw [heb, hef, ← hraw]
    exact mul_lt_mul_of_pos_left (lt_trans h1 h2) hpos

/-- Instantiation of `evaluatePass_directionFactor_forward_gt_backward` at
the concrete forward/backward receivers 20 m from the carrier. -/
theorem evaluatePass_directionFactor_forward_gt_backward_witness :
    (evaluatePass demoCarrier demoBackwardReceiver demoEmptyTeamState none).directionFactor <
      (evaluatePass demoCarrier demoForwardReceiver demoEmptyTeamState none).directionFactor ∧
    ((evaluatePass demoCarrier demoForwardReceiver demoEmptyTeamState none).rawReceiverEPV =
        (evaluatePass demoCarrier demoBackwardReceiver demoEmptyTeamState none).rawReceiverEPV →
      0 < (evaluatePass demoCarrier demoForwardReceiver demoEmptyTeamState none).rawReceiverEPV →
      (evaluatePass demoCarrier demoBackwardReceiver demoEmptyTeamState none).receiverEPV <
        (evaluatePass demoCarrier demoForwardReceiver demoEmptyTeamState none).receiverEPV) :=
  evaluatePass_directionFactor_forward_gt_backward demoEmptyTeamState demoCarrier
    demoForwardReceiver demoBackwardReceiver none
    (by norm_num [demoForwardReceiver, demoBackwardReceiver, demoCarrier])
    (by norm_num [passDirectionOf, demoCarrier, demoForwardReceiver, demoEmptyTeamState])
    (by norm_num [passDirectionOf, demoCarrier, demoBackwardReceiver, demoEmptyTeamState])
